import Mathlib

/-!
Verification of go-simple-bank: request layer, paging arithmetic and random helpers.

A shallow embedding of `api/transfer.go`, `api/server.go` and `util/random.go`.

* Go's `int32` / `int64` values are integers together with an explicit
  wrap-around (`wrapInt32`, `wrapInt64`) wherever the source does arithmetic.
* `db.Store` is an interface; it is a record of functions over an abstract
  store state `σ`.  Handlers return the HTTP status, the body, the list of store
  calls they made (in order) and the store state they leave behind.
* The `db` package itself (records, `TransferTx`) is not part of the sources
  embedded here; the records and the transfer engine are modelled from the
  specification and marked as such.
-/

namespace SimpleBank

/-! ## Machine integers -/

/-- Two's-complement wrap-around of an integer into the range of Go's `int32`. -/
def wrapInt32 (x : Int) : Int := (x + 2147483648) % 4294967296 - 2147483648

/-- Two's-complement wrap-around of an integer into the range of Go's `int64`. -/
def wrapInt64 (x : Int) : Int :=
  (x + 9223372036854775808) % 18446744073709551616 - 9223372036854775808

/-- The integer is a value of Go's `int32`. -/
def isInt32 (x : Int) : Prop := -2147483648 ≤ x ∧ x ≤ 2147483647

/-- The integer is a value of Go's `int64`. -/
def isInt64 (x : Int) : Prop := -9223372036854775808 ≤ x ∧ x ≤ 9223372036854775807

instance (x : Int) : Decidable (isInt32 x) := by unfold isInt32; infer_instance

instance (x : Int) : Decidable (isInt64 x) := by unfold isInt64; infer_instance

/-- Equality of `Except` values is decidable when it is for errors and results. -/
instance {ε α : Type} [DecidableEq ε] [DecidableEq α] : DecidableEq (Except ε α)
  | .ok a, .ok b =>
    if h : a = b then isTrue (by rw [h]) else isFalse (by intro h2; cases h2; exact h rfl)
  | .error a, .error b =>
    if h : a = b then isTrue (by rw [h]) else isFalse (by intro h2; cases h2; exact h rfl)
  | .ok _, .error _ => isFalse (by intro h; cases h)
  | .error _, .ok _ => isFalse (by intro h; cases h)

/-! ## Records of the `db` package -/

/-- Modelled from the spec: the `db.Account` record, whose declaration is not in the
sources; §3 gives `{id, owner, balance (integer minor units), currency, created_at}`.
The creation timestamp is left out. -/
structure Account where
  ID : Int
  Owner : String
  Balance : Int
  Currency : String
  deriving DecidableEq, Repr

/-- Modelled from the spec: the `db.Entry` record (§3), `{id, account_id, amount}` with a
signed amount; the creation timestamp is left out. -/
structure Entry where
  ID : Int
  AccountID : Int
  Amount : Int
  deriving DecidableEq, Repr

/-- Modelled from the spec: the `db.Transfer` record (§3),
`{id, from_account_id, to_account_id, amount}`; the creation timestamp is left out. -/
structure Transfer where
  ID : Int
  FromAccountID : Int
  ToAccountID : Int
  Amount : Int
  deriving DecidableEq, Repr

/-- The argument of `store.TransferTx`; its three fields are the ones
`createTransfer` fills in (`transfer.go`, lines 63-67). -/
structure TransferTxParams where
  FromAccountID : Int
  ToAccountID : Int
  Amount : Int
  deriving DecidableEq, Repr

/-- Modelled from the spec: the result of the transfer engine (§4.1),
`{transfer, fromEntry, toEntry, fromAccount(updated), toAccount(updated)}`. -/
structure TransferTxResult where
  transfer : Transfer
  fromEntry : Entry
  toEntry : Entry
  fromAccount : Account
  toAccount : Account
  deriving DecidableEq, Repr

/-- The argument of `store.ListTransfers`; its four fields are the ones
`listTransfer` fills in (`transfer.go`, lines 116-121). `Limit` and `Offset` are
`int32` in the source. -/
structure ListTransfersParams where
  FromAccountID : Int
  ToAccountID : Int
  Limit : Int
  Offset : Int
  deriving DecidableEq, Repr

/-- Errors a store call can return. The handlers only distinguish `sql.ErrNoRows`
(compared with `==`) from every other error. -/
inductive StoreError where
  | ErrNoRows
  | other (msg : String)
  deriving DecidableEq, Repr

/-- The `Error()` text of a store error. -/
def StoreError.Error : StoreError → String
  | .ErrNoRows => "sql: no rows in result set"
  | .other msg => msg

/-- The part of the `db.Store` interface the transfer handlers call. A call reads the
current store state; `TransferTx` also yields the state it leaves behind. -/
structure Store (σ : Type) where
  GetAccount : σ → Int → Except StoreError Account
  TransferTx : σ → TransferTxParams → Except StoreError TransferTxResult × σ
  ListTransfers : σ → ListTransfersParams → Except StoreError (List Transfer)

/-! ## HTTP responses -/

/-- The constant `http.StatusOK`. -/
def StatusOK : Nat := 200

/-- The constant `http.StatusBadRequest`. -/
def StatusBadRequest : Nat := 400

/-- The constant `http.StatusNotFound`. -/
def StatusNotFound : Nat := 404

/-- The constant `http.StatusInternalServerError`. -/
def StatusInternalServerError : Nat := 500

/-- Bodies passed to `ctx.JSON`. `errorBody msg` is `gin.H{"error": msg}`;
`bindingError` is `errorResponse` of the error returned by gin's binding, whose
text is not modelled. -/
inductive Body where
  | bindingError
  | errorBody (msg : String)
  | transferTx (result : TransferTxResult)
  | transfers (list : List Transfer)
  deriving DecidableEq, Repr

/-- Function `errorResponse` of `server.go`: `gin.H{"error": err.Error()}`. -/
def errorResponse (err : StoreError) : Body := .errorBody err.Error

/-- A call made on the store. -/
inductive StoreCall where
  | GetAccount (id : Int)
  | TransferTx (arg : TransferTxParams)
  | ListTransfers (arg : ListTransfersParams)
  deriving DecidableEq, Repr

/-- Whether a store call is a call of `TransferTx`. -/
def StoreCall.isTransferTx : StoreCall → Bool
  | .TransferTx _ => true
  | _ => false

/-- What a handler does: the status and body it writes, the store calls it made
in order, and the store state afterwards. -/
structure Outcome (σ : Type) where
  status : Nat
  body : Body
  calls : List StoreCall
  state : σ

/-! ## `api/transfer.go` -/

/-- The decoded body of `POST /transfers`. A field missing from the JSON keeps
Go's zero value (`0`, `""`). The three numbers are `int64` in the source. -/
structure createTransferRequest where
  FromAccountID : Int
  ToAccountID : Int
  Amount : Int
  Currency : String
  deriving DecidableEq, Repr

/-- The `binding` tags of `createTransferRequest`: `required` on a number is
"not zero", on a string "not empty"; `min=1` on a number is `1 ≤ ·`;
`oneof=USD EUR` lists the admitted strings. -/
def createTransferRequest.bindingValid (req : createTransferRequest) : Bool :=
  (req.FromAccountID != 0 && decide (1 ≤ req.FromAccountID)) &&
  (req.ToAccountID != 0 && decide (1 ≤ req.ToAccountID)) &&
  (req.Amount != 0) &&
  (req.Currency != "" && (req.Currency == "USD" || req.Currency == "EUR"))

/-- The three numeric fields are `int64` values. -/
def createTransferRequest.wellTyped (req : createTransferRequest) : Prop :=
  isInt64 req.FromAccountID ∧ isInt64 req.ToAccountID ∧ isInt64 req.Amount

/-- Text built by `fmt.Errorf("account [%d] currency mismatch: %s vs %s", ...)`. -/
def accountCurrencyMismatch (id : Int) (have_ want : String) : String :=
  "account [" ++ toString id ++ "] currency mismatch: " ++ have_ ++ " vs " ++ want

/-- Text built by `fmt.Errorf("account currency mismatch: %s vs %s", ...)`. -/
def currencyMismatch (fromCur toCur : String) : String :=
  "account currency mismatch: " ++ fromCur ++ " vs " ++ toCur

/-- Method `createTransfer` of `transfer.go` (lines 19-76), statement by statement. -/
def createTransfer {σ : Type} (store : Store σ) (s : σ) (req : createTransferRequest) :
    Outcome σ :=
  if !req.bindingValid then
    ⟨StatusBadRequest, .bindingError, [], s⟩
  else
    match store.GetAccount s req.FromAccountID with
    | .error err =>
      if err = .ErrNoRows then
        ⟨StatusNotFound, errorResponse err, [.GetAccount req.FromAccountID], s⟩
      else
        ⟨StatusInternalServerError, errorResponse err, [.GetAccount req.FromAccountID], s⟩
    | .ok fromAccount =>
      if fromAccount.Currency ≠ req.Currency then
        ⟨StatusBadRequest,
          .errorBody (accountCurrencyMismatch fromAccount.ID fromAccount.Currency req.Currency),
          [.GetAccount req.FromAccountID], s⟩
      else
        match store.GetAccount s req.ToAccountID with
        | .error err =>
          if err = .ErrNoRows then
            ⟨StatusNotFound, errorResponse err,
              [.GetAccount req.FromAccountID, .GetAccount req.ToAccountID], s⟩
          else
            ⟨StatusInternalServerError, errorResponse err,
              [.GetAccount req.FromAccountID, .GetAccount req.ToAccountID], s⟩
        | .ok toAccount =>
          if toAccount.Currency ≠ req.Currency then
            ⟨StatusBadRequest,
              .errorBody (accountCurrencyMismatch toAccount.ID toAccount.Currency req.Currency),
              [.GetAccount req.FromAccountID, .GetAccount req.ToAccountID], s⟩
          else if fromAccount.Currency ≠ toAccount.Currency then
            ⟨StatusBadRequest,
              .errorBody (currencyMismatch fromAccount.Currency toAccount.Currency),
              [.GetAccount req.FromAccountID, .GetAccount req.ToAccountID], s⟩
          else
            -- TODO of the source (line 61): from account balance >= amount check
            let arg : TransferTxParams :=
              { FromAccountID := req.FromAccountID
                ToAccountID := req.ToAccountID
                Amount := req.Amount }
            match store.TransferTx s arg with
            | (.error err, s') =>
              ⟨StatusInternalServerError, errorResponse err,
                [.GetAccount req.FromAccountID, .GetAccount req.ToAccountID, .TransferTx arg], s'⟩
            | (.ok result, s') =>
              ⟨StatusOK, .transferTx result,
                [.GetAccount req.FromAccountID, .GetAccount req.ToAccountID, .TransferTx arg], s'⟩

/-- The decoded query of `GET /transfer`. The account ids are `int64`, `PageID`
and `PageSize` are `int32` in the source. -/
structure listTransferRequest where
  FromAccountID : Int
  ToAccountID : Int
  PageID : Int
  PageSize : Int
  deriving DecidableEq, Repr

/-- The `binding` tags of `listTransferRequest`: `required,min=1` on the ids and
on `page_id`, `required,min=5,max=10` on `page_size`. -/
def listTransferRequest.bindingValid (req : listTransferRequest) : Bool :=
  (req.FromAccountID != 0 && decide (1 ≤ req.FromAccountID)) &&
  (req.ToAccountID != 0 && decide (1 ≤ req.ToAccountID)) &&
  (req.PageID != 0 && decide (1 ≤ req.PageID)) &&
  (req.PageSize != 0 && decide (5 ≤ req.PageSize) && decide (req.PageSize ≤ 10))

/-- The fields have the types of the source: `int64` ids, `int32` page numbers. -/
def listTransferRequest.wellTyped (req : listTransferRequest) : Prop :=
  isInt64 req.FromAccountID ∧ isInt64 req.ToAccountID ∧
  isInt32 req.PageID ∧ isInt32 req.PageSize

/-- The `db.ListTransfersParams` literal built by `listTransfer` (lines 116-121);
`(req.PageID - 1) * req.PageSize` is `int32` arithmetic. -/
def listTransferArg (req : listTransferRequest) : ListTransfersParams :=
  { FromAccountID := req.FromAccountID
    ToAccountID := req.ToAccountID
    Limit := req.PageSize
    Offset := wrapInt32 (wrapInt32 (req.PageID - 1) * req.PageSize) }

/-- Method `listTransfer` of `transfer.go` (lines 109-130). -/
def listTransfer {σ : Type} (store : Store σ) (s : σ) (req : listTransferRequest) :
    Outcome σ :=
  if !req.bindingValid then
    ⟨StatusBadRequest, .bindingError, [], s⟩
  else
    let arg := listTransferArg req
    match store.ListTransfers s arg with
    | .error err => ⟨StatusInternalServerError, errorResponse err, [.ListTransfers arg], s⟩
    | .ok transfers => ⟨StatusOK, .transfers transfers, [.ListTransfers arg], s⟩

/-! ## `util/random.go` -/

/-- Function `rand.Int63n` of Go's `math/rand`: it panics (`none`) when `n ≤ 0` and
otherwise returns a number in `[0, n)`. `draw` stands for the outcome of the random
source; every number of `[0, n)` is the result for some `draw`. -/
def Int63n (draw : Int) (n : Int) : Option Int :=
  if n ≤ 0 then none else some (draw % n)

/-- Function `RandomInt` of `random.go`: `min + rand.Int63n(max-min+1)` in `int64`
arithmetic; `none` is a panic. -/
def RandomInt (draw : Int) (min max : Int) : Option Int :=
  match Int63n draw (wrapInt64 (wrapInt64 (max - min) + 1)) with
  | none => none
  | some k => some (wrapInt64 (min + k))

/-- Function `RondomMoney` of `random.go`: `RandomInt(0, 1000)`. -/
def RondomMoney (draw : Int) : Option Int := RandomInt draw 0 1000

/-! ## The transfer engine and the stores behind it -/

/-- Modelled from the spec: the state of the backing store (§2): the account store, the
append-only entry log and the append-only transfer record store. The `db` package
implementing them is not in the sources. -/
structure Ledger where
  accounts : List Account
  entries : List Entry
  transfers : List Transfer
  deriving DecidableEq, Repr

/-- Modelled from the spec: `Get(id) -> Account | NotFound` of the account store (§4.2),
a point lookup by identifier. -/
def Ledger.Get (l : Ledger) (id : Int) : Option Account :=
  l.accounts.find? (fun a => a.ID == id)

/-- Modelled from the spec: the atomic statement `balance = balance + delta` on the
row with identifier `id` (§4.2), seen on one account record. -/
def Account.addBalance (id delta : Int) (a : Account) : Account :=
  if a.ID = id then { a with Balance := a.Balance + delta } else a

/-- Modelled from the spec: `AddBalance(id, delta)` of the account store (§4.2). -/
def Ledger.AddBalance (l : Ledger) (id delta : Int) : Ledger :=
  { l with accounts := l.accounts.map (Account.addBalance id delta) }

/-- Modelled from the spec: the failure conditions the engine signals (§4.1) other than
a storage failure; a currency mismatch is a precondition of callers and is not
checked by the engine (§7). -/
inductive TransferError where
  | AccountNotFound
  | InsufficientFunds
  | SelfTransfer
  | InvalidAmount
  deriving DecidableEq, Repr

/-- Modelled from the spec: the transfer engine `Transfer(fromAccountID, toAccountID, amount)`
of §4.1, which the sources only call (as `store.TransferTx`). Self-transfers and
non-positive amounts are rejected; both accounts must exist; a debit that would make
the source balance negative fails with "insufficient funds"; otherwise the transfer
record, the debit entry and the credit entry are appended and the two balance deltas
are applied in ascending order of account identifier. A failure leaves the ledger as
it was (no new ledger is returned). -/
def Ledger.TransferTx (l : Ledger) (arg : TransferTxParams) :
    Except TransferError (TransferTxResult × Ledger) :=
  if arg.FromAccountID = arg.ToAccountID then .error .SelfTransfer
  else if arg.Amount ≤ 0 then .error .InvalidAmount
  else
    match l.Get arg.FromAccountID, l.Get arg.ToAccountID with
    | some fromAccount, some _ =>
      if fromAccount.Balance - arg.Amount < 0 then .error .InsufficientFunds
      else
        let transfer : Transfer :=
          { ID := l.transfers.length + 1
            FromAccountID := arg.FromAccountID
            ToAccountID := arg.ToAccountID
            Amount := arg.Amount }
        let fromEntry : Entry :=
          { ID := l.entries.length + 1, AccountID := arg.FromAccountID, Amount := -arg.Amount }
        let toEntry : Entry :=
          { ID := l.entries.length + 2, AccountID := arg.ToAccountID, Amount := arg.Amount }
        let l1 : Ledger :=
          { l with
            transfers := l.transfers ++ [transfer]
            entries := l.entries ++ [fromEntry, toEntry] }
        let l2 : Ledger :=
          if arg.FromAccountID < arg.ToAccountID then
            (l1.AddBalance arg.FromAccountID (-arg.Amount)).AddBalance arg.ToAccountID arg.Amount
          else
            (l1.AddBalance arg.ToAccountID arg.Amount).AddBalance arg.FromAccountID (-arg.Amount)
        match l2.Get arg.FromAccountID, l2.Get arg.ToAccountID with
        | some fromAccount2, some toAccount2 =>
          .ok (⟨transfer, fromEntry, toEntry, fromAccount2, toAccount2⟩, l2)
        | _, _ => .error .AccountNotFound
    | _, _ => .error .AccountNotFound

/-- A store over a fixed list of accounts, for evaluating the handlers on concrete
requests: `GetAccount` looks the identifier up and answers `sql.ErrNoRows` when
it is absent, `TransferTx` answers what `tx` says, `ListTransfers` answers the
empty list. -/
def fixedStore (accounts : List Account)
    (tx : TransferTxParams → Except StoreError TransferTxResult) : Store Unit where
  GetAccount := fun _ id =>
    match accounts.find? (fun a => a.ID == id) with
    | some a => .ok a
    | none => .error .ErrNoRows
  TransferTx := fun s arg => (tx arg, s)
  ListTransfers := fun _ _ => .ok []

/-- An engine answer for `fixedStore` that accepts every transfer and reports the
records of the transfer it was asked for. -/
def acceptTx (arg : TransferTxParams) : Except StoreError TransferTxResult :=
  .ok
    { transfer := ⟨1, arg.FromAccountID, arg.ToAccountID, arg.Amount⟩
      fromEntry := ⟨1, arg.FromAccountID, -arg.Amount⟩
      toEntry := ⟨2, arg.ToAccountID, arg.Amount⟩
      fromAccount := ⟨arg.FromAccountID, "", 0, ""⟩
      toAccount := ⟨arg.ToAccountID, "", 0, ""⟩ }

/-- An engine answer for `fixedStore` that refuses every transfer with one error. -/
def rejectTx (msg : String) (_arg : TransferTxParams) : Except StoreError TransferTxResult :=
  .error (.other msg)

/-! ## Sample data for the concrete evaluations -/

/-- Two existing accounts, both in USD, with balances 100 and 50 (the example of §8). -/
def usdAccounts : List Account := [⟨1, "alice", 100, "USD"⟩, ⟨2, "bob", 50, "USD"⟩]

/-- One account in EUR and one in USD; no account has identifier 3. -/
def mixedAccounts : List Account := [⟨1, "alice", 100, "EUR"⟩, ⟨2, "bob", 50, "USD"⟩]

/-- The ledger of the example of §8: account 1 holds 100, account 2 holds 50, both in
USD; no entries and no transfers yet. -/
def exampleLedger : Ledger := ⟨usdAccounts, [], []⟩

/-- The result expected by §8 for `Transfer(A, B, 30)` on `exampleLedger`. -/
def exampleResult : TransferTxResult :=
  { transfer := ⟨1, 1, 2, 30⟩
    fromEntry := ⟨1, 1, -30⟩
    toEntry := ⟨2, 2, 30⟩
    fromAccount := ⟨1, "alice", 70, "USD"⟩
    toAccount := ⟨2, "bob", 80, "USD"⟩ }

/-- The ledger expected by §8 after `Transfer(A, B, 30)` on `exampleLedger`. -/
def exampleLedgerAfter : Ledger :=
  { accounts := [⟨1, "alice", 70, "USD"⟩, ⟨2, "bob", 80, "USD"⟩]
    entries := [⟨1, 1, -30⟩, ⟨2, 2, 30⟩]
    transfers := [⟨1, 1, 2, 30⟩] }

/-! ## `createTransfer`: the paths through the handler -/

/-- A request that fails binding is answered 400 without any store call. -/
theorem createTransfer_binding_failed {σ : Type} (store : Store σ) (s : σ)
    (req : createTransferRequest) (hvalid : req.bindingValid = false) :
    createTransfer store s req = ⟨400, .bindingError, [], s⟩ := by
  simp [createTransfer, hvalid, StatusBadRequest]

/-- The source lookup fails: 404 for `sql.ErrNoRows`, 500 otherwise, one store call. -/
theorem createTransfer_from_lookup_failed {σ : Type} (store : Store σ) (s : σ)
    (req : createTransferRequest) (err : StoreError) (hvalid : req.bindingValid = true)
    (hfrom : store.GetAccount s req.FromAccountID = .error err) :
    createTransfer store s req =
      ⟨if err = .ErrNoRows then 404 else 500, errorResponse err,
        [.GetAccount req.FromAccountID], s⟩ := by
  unfold createTransfer
  simp only [hvalid, hfrom, StatusNotFound, StatusInternalServerError]
  by_cases h : err = .ErrNoRows <;> simp [h]

/-- The source account is found with another currency than the requested one: 400
after one store call. -/
theorem createTransfer_from_currency_differs {σ : Type} (store : Store σ) (s : σ)
    (req : createTransferRequest) (fa : Account) (hvalid : req.bindingValid = true)
    (hfrom : store.GetAccount s req.FromAccountID = .ok fa)
    (hcur : fa.Currency ≠ req.Currency) :
    createTransfer store s req =
      ⟨400, .errorBody (accountCurrencyMismatch fa.ID fa.Currency req.Currency),
        [.GetAccount req.FromAccountID], s⟩ := by
  unfold createTransfer
  simp [hvalid, hfrom, hcur, StatusBadRequest]

/-- The source account is fine and the destination lookup fails: 404 for
`sql.ErrNoRows`, 500 otherwise, two store calls. -/
theorem createTransfer_to_lookup_failed {σ : Type} (store : Store σ) (s : σ)
    (req : createTransferRequest) (fa : Account) (err : StoreError)
    (hvalid : req.bindingValid = true)
    (hfrom : store.GetAccount s req.FromAccountID = .ok fa)
    (hcur : fa.Currency = req.Currency)
    (hto : store.GetAccount s req.ToAccountID = .error err) :
    createTransfer store s req =
      ⟨if err = .ErrNoRows then 404 else 500, errorResponse err,
        [.GetAccount req.FromAccountID, .GetAccount req.ToAccountID], s⟩ := by
  unfold createTransfer
  simp only [hvalid, hfrom, hto, hcur, StatusNotFound, StatusInternalServerError]
  by_cases h : err = .ErrNoRows <;> simp [h]

/-- The destination account is found with another currency than the requested one:
400 after two store calls. -/
theorem createTransfer_to_currency_differs {σ : Type} (store : Store σ) (s : σ)
    (req : createTransferRequest) (fa ta : Account) (hvalid : req.bindingValid = true)
    (hfrom : store.GetAccount s req.FromAccountID = .ok fa)
    (hcur : fa.Currency = req.Currency)
    (hto : store.GetAccount s req.ToAccountID = .ok ta)
    (hcur2 : ta.Currency ≠ req.Currency) :
    createTransfer store s req =
      ⟨400, .errorBody (accountCurrencyMismatch ta.ID ta.Currency req.Currency),
        [.GetAccount req.FromAccountID, .GetAccount req.ToAccountID], s⟩ := by
  unfold createTransfer
  simp [hvalid, hfrom, hto, hcur, hcur2, StatusBadRequest]

/-- Both accounts are found with the requested currency: the handler calls
`TransferTx` with the three fields of the request and answers 200 with the result,
or 500 with the text of the error. -/
theorem createTransfer_reaches_engine {σ : Type} (store : Store σ) (s : σ)
    (req : createTransferRequest) (fa ta : Account) (hvalid : req.bindingValid = true)
    (hfrom : store.GetAccount s req.FromAccountID = .ok fa)
    (hcur : fa.Currency = req.Currency)
    (hto : store.GetAccount s req.ToAccountID = .ok ta)
    (hcur2 : ta.Currency = req.Currency) :
    createTransfer store s req =
      match store.TransferTx s ⟨req.FromAccountID, req.ToAccountID, req.Amount⟩ with
      | (.error err, s') =>
        ⟨500, .errorBody err.Error,
          [.GetAccount req.FromAccountID, .GetAccount req.ToAccountID,
            .TransferTx ⟨req.FromAccountID, req.ToAccountID, req.Amount⟩], s'⟩
      | (.ok result, s') =>
        ⟨200, .transferTx result,
          [.GetAccount req.FromAccountID, .GetAccount req.ToAccountID,
            .TransferTx ⟨req.FromAccountID, req.ToAccountID, req.Amount⟩], s'⟩ := by
  unfold createTransfer
  simp only [hvalid, hfrom, hto, hcur, hcur2, StatusOK, StatusInternalServerError,
    errorResponse]
  simp

/-- A request whose amount is zero fails binding: 400 and no store call at all. -/
theorem createTransfer_zero_amount {σ : Type} (store : Store σ) (s : σ)
    (req : createTransferRequest) (hzero : req.Amount = 0) :
    createTransfer store s req = ⟨400, .bindingError, [], s⟩ := by
  apply createTransfer_binding_failed
  simp [createTransferRequest.bindingValid, hzero]

/-! ## Claims on `createTransfer` -/

/-- C1: for a request that passes binding and whose two accounts are both found by
`GetAccount`, if the source currency or the destination currency differs from the
requested one (in particular if the two currencies differ from each other), the
handler answers 400 and makes no `TransferTx` call. -/
theorem createTransfer_currency_mismatch_rejected {σ : Type} (store : Store σ) (s : σ)
    (req : createTransferRequest) (fa ta : Account) (hvalid : req.bindingValid = true)
    (hfrom : store.GetAccount s req.FromAccountID = .ok fa)
    (hto : store.GetAccount s req.ToAccountID = .ok ta)
    (hcur : fa.Currency ≠ req.Currency ∨ ta.Currency ≠ req.Currency ∨
      fa.Currency ≠ ta.Currency) :
    (createTransfer store s req).status = 400 ∧
    ∀ c ∈ (createTransfer store s req).calls, c.isTransferTx = false := by
  by_cases h1 : fa.Currency = req.Currency
  · by_cases h2 : ta.Currency = req.Currency
    · exact absurd (h1.trans h2.symm) (by
        rcases hcur with h | h | h
        · exact absurd h1 h
        · exact absurd h2 h
        · exact h)
    · rw [createTransfer_to_currency_differs store s req fa ta hvalid hfrom h1 hto h2]
      simp [StoreCall.isTransferTx]
  · rw [createTransfer_from_currency_differs store s req fa hvalid hfrom h1]
    simp [StoreCall.isTransferTx]

/-- C1 at a concrete request: source account in EUR, request in USD. -/
theorem createTransfer_currency_mismatch_rejected_witness :
    (createTransfer (fixedStore mixedAccounts acceptTx) () ⟨1, 2, 10, "USD"⟩).status = 400 ∧
    ∀ c ∈ (createTransfer (fixedStore mixedAccounts acceptTx) () ⟨1, 2, 10, "USD"⟩).calls,
      c.isTransferTx = false :=
  createTransfer_currency_mismatch_rejected (fixedStore mixedAccounts acceptTx) ()
    ⟨1, 2, 10, "USD"⟩ ⟨1, "alice", 100, "EUR"⟩ ⟨2, "bob", 50, "USD"⟩
    (by decide) (by decide) (by decide) (Or.inl (by decide))

/-- C2, as stated, fails: the destination identifier 3 references no account
(`GetAccount` answers `sql.ErrNoRows` for it), yet the request is answered 400, not
404, because the source account is in EUR and the request in USD. -/
theorem createTransfer_missing_destination_answers_400 :
    (⟨1, 3, 10, "USD"⟩ : createTransferRequest).bindingValid = true ∧
    (fixedStore mixedAccounts acceptTx).GetAccount () 3 = .error .ErrNoRows ∧
    (createTransfer (fixedStore mixedAccounts acceptTx) () ⟨1, 3, 10, "USD"⟩).status = 400 ∧
    (createTransfer (fixedStore mixedAccounts acceptTx) () ⟨1, 3, 10, "USD"⟩).status ≠ 404 := by
  decide

/-- C2, amended: for a request that passes binding and one of whose two account
identifiers has no account, `TransferTx` is never called; the answer is 404 when the
source account is the missing one, and 404 when the source account is found with the
requested currency and the destination is missing; the source checks come first, so a
source account found with another currency gives 400 and a source lookup failing
with another error gives 500. -/
theorem createTransfer_account_not_found {σ : Type} (store : Store σ) (s : σ)
    (req : createTransferRequest) (hvalid : req.bindingValid = true)
    (hmissing : store.GetAccount s req.FromAccountID = .error .ErrNoRows ∨
      store.GetAccount s req.ToAccountID = .error .ErrNoRows) :
    (∀ c ∈ (createTransfer store s req).calls, c.isTransferTx = false) ∧
    (store.GetAccount s req.FromAccountID = .error .ErrNoRows →
      (createTransfer store s req).status = 404) ∧
    (∀ fa, store.GetAccount s req.FromAccountID = .ok fa → fa.Currency = req.Currency →
      store.GetAccount s req.ToAccountID = .error .ErrNoRows →
      (createTransfer store s req).status = 404) ∧
    (∀ fa, store.GetAccount s req.FromAccountID = .ok fa → fa.Currency ≠ req.Currency →
      (createTransfer store s req).status = 400) ∧
    (∀ err, store.GetAccount s req.FromAccountID = .error err → err ≠ .ErrNoRows →
      (createTransfer store s req).status = 500) := by
  refine ⟨?_, ?_, ?_, ?_, ?_⟩
  · cases hfrom : store.GetAccount s req.FromAccountID with
    | error err =>
      rw [createTransfer_from_lookup_failed store s req err hvalid hfrom]
      simp [StoreCall.isTransferTx]
    | ok fa =>
      have hto : store.GetAccount s req.ToAccountID = .error .ErrNoRows := by
        rcases hmissing with h | h
        · rw [hfrom] at h; cases h
        · exact h
      by_cases h1 : fa.Currency = req.Currency
      · rw [createTransfer_to_lookup_failed store s req fa _ hvalid hfrom h1 hto]
        simp [StoreCall.isTransferTx]
      · rw [createTransfer_from_currency_differs store s req fa hvalid hfrom h1]
        simp [StoreCall.isTransferTx]
  · intro hfrom
    rw [createTransfer_from_lookup_failed store s req _ hvalid hfrom]
    simp
  · intro fa hfrom h1 hto
    rw [createTransfer_to_lookup_failed store s req fa _ hvalid hfrom h1 hto]
    simp
  · intro fa hfrom h1
    rw [createTransfer_from_currency_differs store s req fa hvalid hfrom h1]
  · intro err hfrom hne
    rw [createTransfer_from_lookup_failed store s req err hvalid hfrom]
    simp [hne]

/-- C2, amended, at the request of the spec: `Transfer(nonexistent, B, 10)`, with no
account 3 and account 2 in USD. -/
theorem createTransfer_account_not_found_witness :
    (createTransfer (fixedStore mixedAccounts acceptTx) () ⟨3, 2, 10, "USD"⟩).status = 404 ∧
    ∀ c ∈ (createTransfer (fixedStore mixedAccounts acceptTx) () ⟨3, 2, 10, "USD"⟩).calls,
      c.isTransferTx = false :=
  have h := createTransfer_account_not_found (fixedStore mixedAccounts acceptTx) ()
    ⟨3, 2, 10, "USD"⟩ (by decide) (Or.inl (by decide))
  ⟨h.2.1 (by decide), h.1⟩

/-- C3, at a failing input: the amount -5 passes binding (`required` only excludes
zero), both accounts are in USD, and the handler calls `TransferTx` with amount -5;
the answer is 200 when the engine accepts and 500 when it refuses, never 400. -/
theorem createTransfer_negative_amount_reaches_engine :
    (⟨1, 2, -5, "USD"⟩ : createTransferRequest).bindingValid = true ∧
    (⟨1, 2, -5, "USD"⟩ : createTransferRequest).wellTyped ∧
    (createTransfer (fixedStore usdAccounts acceptTx) () ⟨1, 2, -5, "USD"⟩).calls =
      [.GetAccount 1, .GetAccount 2, .TransferTx ⟨1, 2, -5⟩] ∧
    (createTransfer (fixedStore usdAccounts acceptTx) () ⟨1, 2, -5, "USD"⟩).status = 200 ∧
    (createTransfer (fixedStore usdAccounts (rejectTx "invalid amount")) ()
      ⟨1, 2, -5, "USD"⟩).status = 500 := by
  refine ⟨by decide, ?_, by decide, by decide, by decide⟩
  simp [createTransferRequest.wellTyped, isInt64]

/-- C4, as stated, fails: the self-transfer of 10 from account 1 to account 1 (existing,
in the requested currency) is handed to the engine; the answer is 200 when the engine
accepts it and 500 when the engine refuses it, in neither case 400. -/
theorem createTransfer_self_transfer_not_rejected :
    (⟨1, 1, 10, "USD"⟩ : createTransferRequest).bindingValid = true ∧
    (createTransfer (fixedStore usdAccounts acceptTx) () ⟨1, 1, 10, "USD"⟩).calls =
      [.GetAccount 1, .GetAccount 1, .TransferTx ⟨1, 1, 10⟩] ∧
    (createTransfer (fixedStore usdAccounts acceptTx) () ⟨1, 1, 10, "USD"⟩).status = 200 ∧
    (createTransfer (fixedStore usdAccounts (rejectTx "self transfer")) ()
      ⟨1, 1, 10, "USD"⟩).status = 500 := by
  decide

/-- C4, amended: the handler has no self-transfer check. For a request that passes
binding with `from_account_id = to_account_id`, whose account exists in the requested
currency, it calls `TransferTx` once with both identifiers equal, and answers 200
exactly when the engine returns no error and 500 exactly when it returns one; it
never answers 400. -/
theorem createTransfer_self_transfer_delegated {σ : Type} (store : Store σ) (s : σ)
    (req : createTransferRequest) (a : Account) (hvalid : req.bindingValid = true)
    (hself : req.FromAccountID = req.ToAccountID)
    (hget : store.GetAccount s req.FromAccountID = .ok a)
    (hcur : a.Currency = req.Currency) :
    (createTransfer store s req).calls =
      [.GetAccount req.FromAccountID, .GetAccount req.FromAccountID,
        .TransferTx ⟨req.FromAccountID, req.FromAccountID, req.Amount⟩] ∧
    (createTransfer store s req).status ≠ 400 ∧
    ((createTransfer store s req).status = 200 ↔
      ∃ r, (store.TransferTx s ⟨req.FromAccountID, req.FromAccountID, req.Amount⟩).1 = .ok r) ∧
    ((createTransfer store s req).status = 500 ↔
      ∃ err, (store.TransferTx s ⟨req.FromAccountID, req.FromAccountID, req.Amount⟩).1
        = .error err) := by
  have hto : store.GetAccount s req.ToAccountID = .ok a := by rw [← hself]; exact hget
  rw [createTransfer_reaches_engine store s req a a hvalid hget hcur hto hcur, ← hself]
  rcases htx : store.TransferTx s ⟨req.FromAccountID, req.FromAccountID, req.Amount⟩
    with ⟨res, s'⟩
  cases res <;> simp

/-- C4, amended, at the request of the spec: `Transfer(A, A, 10)` with `A` an existing
account in the requested currency. -/
theorem createTransfer_self_transfer_delegated_witness :
    (createTransfer (fixedStore usdAccounts acceptTx) () ⟨1, 1, 10, "USD"⟩).status ≠ 400 :=
  (createTransfer_self_transfer_delegated (fixedStore usdAccounts acceptTx) ()
    ⟨1, 1, 10, "USD"⟩ ⟨1, "alice", 100, "USD"⟩ (by decide) (by decide) (by decide)
    (by decide)).2.1

/-- C5, at a failing input: the source account holds 100 and the request asks for 500;
the handler makes no balance check and calls `TransferTx` with amount 500; the answer
is 200 when the engine accepts and 500 when it refuses, never 400. -/
theorem createTransfer_overdraft_reaches_engine :
    (⟨1, 2, 500, "USD"⟩ : createTransferRequest).bindingValid = true ∧
    (fixedStore usdAccounts acceptTx).GetAccount () 1 = .ok ⟨1, "alice", 100, "USD"⟩ ∧
    (createTransfer (fixedStore usdAccounts acceptTx) () ⟨1, 2, 500, "USD"⟩).calls =
      [.GetAccount 1, .GetAccount 2, .TransferTx ⟨1, 2, 500⟩] ∧
    (createTransfer (fixedStore usdAccounts acceptTx) () ⟨1, 2, 500, "USD"⟩).status = 200 ∧
    (createTransfer (fixedStore usdAccounts (rejectTx "insufficient funds")) ()
      ⟨1, 2, 500, "USD"⟩).status = 500 := by
  decide

/-- C6: for a request that passes binding and whose two accounts both exist with the
requested currency, the handler calls `TransferTx` exactly once, with the request's
`from_account_id`, `to_account_id` and `amount`; if the call returns a result and no
error the answer is 200 with exactly that result as body, and if it returns an error
the answer is 500 with that error's text. -/
theorem createTransfer_success_path {σ : Type} (store : Store σ) (s : σ)
    (req : createTransferRequest) (fa ta : Account) (hvalid : req.bindingValid = true)
    (hfrom : store.GetAccount s req.FromAccountID = .ok fa)
    (hto : store.GetAccount s req.ToAccountID = .ok ta)
    (hcur : fa.Currency = req.Currency) (hcur2 : ta.Currency = req.Currency) :
    (createTransfer store s req).calls =
      [.GetAccount req.FromAccountID, .GetAccount req.ToAccountID,
        .TransferTx ⟨req.FromAccountID, req.ToAccountID, req.Amount⟩] ∧
    (createTransfer store s req).calls.filter StoreCall.isTransferTx =
      [.TransferTx ⟨req.FromAccountID, req.ToAccountID, req.Amount⟩] ∧
    (∀ r s', store.TransferTx s ⟨req.FromAccountID, req.ToAccountID, req.Amount⟩ = (.ok r, s') →
      (createTransfer store s req).status = 200 ∧
      (createTransfer store s req).body = .transferTx r ∧
      (createTransfer store s req).state = s') ∧
    (∀ err s',
      store.TransferTx s ⟨req.FromAccountID, req.ToAccountID, req.Amount⟩ = (.error err, s') →
      (createTransfer store s req).status = 500 ∧
      (createTransfer store s req).body = .errorBody err.Error ∧
      (createTransfer store s req).state = s') := by
  rw [createTransfer_reaches_engine store s req fa ta hvalid hfrom hcur hto hcur2]
  rcases htx : store.TransferTx s ⟨req.FromAccountID, req.ToAccountID, req.Amount⟩
    with ⟨res, s'⟩
  cases res <;> simp [StoreCall.isTransferTx]

/-- C6 at the request of the spec's example: 30 from account 1 to account 2, both in USD. -/
theorem createTransfer_success_path_witness :
    (createTransfer (fixedStore usdAccounts acceptTx) () ⟨1, 2, 30, "USD"⟩).calls =
      [.GetAccount 1, .GetAccount 2, .TransferTx ⟨1, 2, 30⟩] ∧
    (createTransfer (fixedStore usdAccounts acceptTx) () ⟨1, 2, 30, "USD"⟩).status = 200 :=
  have h := createTransfer_success_path (fixedStore usdAccounts acceptTx) ()
    ⟨1, 2, 30, "USD"⟩ ⟨1, "alice", 100, "USD"⟩ ⟨2, "bob", 50, "USD"⟩
    (by decide) (by decide) (by decide) (by decide) (by decide)
  ⟨h.1, (h.2.2.1 _ () rfl).1⟩

/-! ## Machine arithmetic -/

/-- Wrapping an `int32` value changes nothing. -/
theorem wrapInt32_of_isInt32 (x : Int) (h : isInt32 x) : wrapInt32 x = x := by
  unfold isInt32 at h
  unfold wrapInt32
  omega

/-- Wrapping an `int64` value changes nothing. -/
theorem wrapInt64_of_isInt64 (x : Int) (h : isInt64 x) : wrapInt64 x = x := by
  unfold isInt64 at h
  unfold wrapInt64
  omega

/-- What binding guarantees on the page fields. -/
theorem listTransferRequest.page_bounds (req : listTransferRequest)
    (hvalid : req.bindingValid = true) :
    1 ≤ req.PageID ∧ 5 ≤ req.PageSize ∧ req.PageSize ≤ 10 := by
  simp only [listTransferRequest.bindingValid, Bool.and_eq_true, decide_eq_true_eq] at hvalid
  exact ⟨hvalid.1.2.2, hvalid.2.1.2, hvalid.2.2⟩

/-- A request that passes binding leads to exactly one store call, `ListTransfers`
with the parameters built from the request. -/
theorem listTransfer_calls {σ : Type} (store : Store σ) (s : σ) (req : listTransferRequest)
    (hvalid : req.bindingValid = true) :
    (listTransfer store s req).calls = [.ListTransfers (listTransferArg req)] := by
  unfold listTransfer
  simp only [hvalid]
  cases store.ListTransfers s (listTransferArg req) <;> simp

/-! ## Claim on `listTransfer` -/

/-- C7, as stated, fails: `page_id = 2147483647`, `page_size = 10` passes binding and
`ListTransfers` is called with `Offset = -20`, which is negative and is not the
product `2147483646 * 10`. -/
theorem listTransfer_offset_wraps :
    (⟨1, 2, 2147483647, 10⟩ : listTransferRequest).bindingValid = true ∧
    (⟨1, 2, 2147483647, 10⟩ : listTransferRequest).wellTyped ∧
    (listTransfer (fixedStore usdAccounts acceptTx) () ⟨1, 2, 2147483647, 10⟩).calls =
      [.ListTransfers ⟨1, 2, 10, -20⟩] ∧
    (listTransferArg ⟨1, 2, 2147483647, 10⟩).Offset ≠ (2147483647 - 1) * 10 ∧
    (listTransferArg ⟨1, 2, 2147483647, 10⟩).Offset < 0 := by
  refine ⟨by decide, ?_, by decide, by decide, by decide⟩
  simp [listTransferRequest.wellTyped, isInt64, isInt32]

/-- C7, amended: for a list request that passes binding (with `int32` page fields),
`ListTransfers` is called once with `Limit = page_size` and with `Offset` the product
`(page_id - 1) * page_size` wrapped to `int32`; whenever that product is at most
`2147483647` (in particular whenever `page_id ≤ 214748365`) the offset is the exact
product, hence non-negative and a multiple of `page_size`. -/
theorem listTransfer_paging {σ : Type} (store : Store σ) (s : σ) (req : listTransferRequest)
    (hty : req.wellTyped) (hvalid : req.bindingValid = true) :
    ∃ offset : Int,
      (listTransfer store s req).calls =
        [.ListTransfers ⟨req.FromAccountID, req.ToAccountID, req.PageSize, offset⟩] ∧
      offset = wrapInt32 ((req.PageID - 1) * req.PageSize) ∧
      ((req.PageID - 1) * req.PageSize ≤ 2147483647 →
        offset = (req.PageID - 1) * req.PageSize ∧ 0 ≤ offset ∧ req.PageSize ∣ offset) ∧
      (req.PageID ≤ 214748365 → offset = (req.PageID - 1) * req.PageSize) := by
  obtain ⟨hid, hlo, hhi⟩ := req.page_bounds hvalid
  have hpage : wrapInt32 (req.PageID - 1) = req.PageID - 1 := by
    apply wrapInt32_of_isInt32
    have := hty.2.2.1
    unfold isInt32 at this ⊢
    omega
  have hnonneg : 0 ≤ (req.PageID - 1) * req.PageSize :=
    Int.mul_nonneg (by omega) (by omega)
  have hexact : (req.PageID - 1) * req.PageSize ≤ 2147483647 →
      wrapInt32 ((req.PageID - 1) * req.PageSize) = (req.PageID - 1) * req.PageSize := by
    intro hfit
    apply wrapInt32_of_isInt32
    unfold isInt32
    omega
  refine ⟨wrapInt32 ((req.PageID - 1) * req.PageSize), ?_, rfl, ?_, ?_⟩
  · rw [listTransfer_calls store s req hvalid, listTransferArg, hpage]
  · intro hfit
    rw [hexact hfit]
    exact ⟨rfl, hnonneg, Dvd.intro_left _ rfl⟩
  · intro hsmall
    apply hexact
    have h1 : (req.PageID - 1) * req.PageSize ≤ 214748364 * req.PageSize :=
      Int.mul_le_mul_of_nonneg_right (by omega) (by omega)
    omega

/-- C7, amended, at a concrete request: page 3 of size 5 starts at offset 10. -/
theorem listTransfer_paging_witness :
    ∃ offset : Int,
      (listTransfer (fixedStore usdAccounts acceptTx) () ⟨1, 2, 3, 5⟩).calls =
        [.ListTransfers ⟨1, 2, 5, offset⟩] ∧
      offset = wrapInt32 ((3 - 1) * 5) ∧
      ((3 - 1) * 5 ≤ (2147483647 : Int) → offset = (3 - 1) * 5 ∧ 0 ≤ offset ∧ (5 : Int) ∣ offset) ∧
      ((3 : Int) ≤ 214748365 → offset = (3 - 1) * 5) :=
  listTransfer_paging (fixedStore usdAccounts acceptTx) () ⟨1, 2, 3, 5⟩
    (by simp [listTransferRequest.wellTyped, isInt64, isInt32]) (by decide)

/-! ## Claim on `RandomInt` -/

/-- C10, as stated, fails: `min = 0 ≤ max = 9223372036854775807` are `int64` values
and `max - min + 1` wraps to a negative number, so `rand.Int63n` panics. -/
theorem RandomInt_panics_on_wide_range :
    isInt64 0 ∧ isInt64 9223372036854775807 ∧ (0 : Int) ≤ 9223372036854775807 ∧
    wrapInt64 (wrapInt64 (9223372036854775807 - 0) + 1) = -9223372036854775808 ∧
    RandomInt 0 0 9223372036854775807 = none := by
  decide

/-- C10, amended: for `int64` values `min ≤ max` with `max - min < 9223372036854775807`
(so that `max - min + 1` is a positive `int64`) and for every outcome of the random
source, `RandomInt(min, max)` does not panic and returns `r` with `min ≤ r ≤ max`; in
particular `RondomMoney()` always returns a value in `[0, 1000]`. -/
theorem RandomInt_in_range (draw min max : Int) (hmin : isInt64 min) (hmax : isInt64 max)
    (hle : min ≤ max) (hfit : max - min < 9223372036854775807) :
    (∃ r, RandomInt draw min max = some r ∧ min ≤ r ∧ r ≤ max) ∧
    (∀ d, ∃ r, RondomMoney d = some r ∧ 0 ≤ r ∧ r ≤ 1000) := by
  have key : ∀ (d a b : Int), isInt64 a → isInt64 b → a ≤ b → b - a < 9223372036854775807 →
      ∃ r, RandomInt d a b = some r ∧ a ≤ r ∧ r ≤ b := by
    intro d a b ha hb hab hfit
    unfold isInt64 at ha hb
    have hn : wrapInt64 (wrapInt64 (b - a) + 1) = b - a + 1 := by
      unfold wrapInt64
      omega
    have hpos : 0 < b - a + 1 := by omega
    have hk0 : 0 ≤ d % (b - a + 1) := Int.emod_nonneg _ (by omega)
    have hk1 : d % (b - a + 1) < b - a + 1 := Int.emod_lt_of_pos _ hpos
    have hr : wrapInt64 (a + d % (b - a + 1)) = a + d % (b - a + 1) := by
      apply wrapInt64_of_isInt64
      unfold isInt64
      omega
    refine ⟨a + d % (b - a + 1), ?_, by omega, by omega⟩
    unfold RandomInt Int63n
    rw [hn, if_neg (by omega)]
    simp only [hr]
  refine ⟨key draw min max hmin hmax hle hfit, fun d => ?_⟩
  exact key d 0 1000 (by unfold isInt64; omega) (by unfold isInt64; omega) (by omega) (by omega)

/-- C10, amended, at a concrete call: `RandomInt(-5, 5)`. -/
theorem RandomInt_in_range_witness :
    (∃ r, RandomInt 7 (-5) 5 = some r ∧ -5 ≤ r ∧ r ≤ 5) ∧
    (∀ d, ∃ r, RondomMoney d = some r ∧ 0 ≤ r ∧ r ≤ 1000) :=
  RandomInt_in_range 7 (-5) 5 (by decide) (by decide) (by decide) (by decide)

/-- Every number of `[0, n)` is an outcome of `Int63n`. -/
theorem Int63n_onto (k n : Int) (h0 : 0 ≤ k) (hk : k < n) : Int63n k n = some k := by
  unfold Int63n
  rw [if_neg (by omega), Int.emod_eq_of_lt h0 hk]

/-- On `int64` values `min ≤ max`, `RandomInt` panics exactly when `max - min + 1`
does not fit in `int64`. -/
theorem RandomInt_panics_iff (draw min max : Int) (hmin : isInt64 min) (hmax : isInt64 max)
    (hle : min ≤ max) :
    RandomInt draw min max = none ↔ 9223372036854775807 ≤ max - min := by
  unfold isInt64 at hmin hmax
  unfold RandomInt Int63n
  by_cases hfit : 9223372036854775807 ≤ max - min
  · have hn : wrapInt64 (wrapInt64 (max - min) + 1) ≤ 0 := by
      unfold wrapInt64
      omega
    simp [hn, hfit]
  · have hn : ¬ wrapInt64 (wrapInt64 (max - min) + 1) ≤ 0 := by
      unfold wrapInt64
      omega
    simp [hn, hfit]

/-! ## The transfer engine -/

/-- Adding to a balance keeps the identifier. -/
theorem Account.addBalance_ID (id delta : Int) (a : Account) :
    (a.addBalance id delta).ID = a.ID := by
  unfold Account.addBalance
  split <;> rfl

/-- The balance after `addBalance`: changed by `delta` on the addressed account only. -/
theorem Account.addBalance_Balance (id delta : Int) (a : Account) :
    (a.addBalance id delta).Balance = if a.ID = id then a.Balance + delta else a.Balance := by
  unfold Account.addBalance
  split <;> rfl

/-- A lookup after `AddBalance` finds the account found before, updated. -/
theorem Ledger.Get_AddBalance (l : Ledger) (id delta j : Int) :
    (l.AddBalance id delta).Get j = (l.Get j).map (Account.addBalance id delta) := by
  unfold Ledger.AddBalance Ledger.Get
  simp only
  induction l.accounts with
  | nil => rfl
  | cons a rest ih =>
    simp only [List.map_cons, List.find?_cons, Account.addBalance_ID]
    cases a.ID == j
    · exact ih
    · rfl

/-- The account found for an identifier carries that identifier. -/
theorem Ledger.Get_ID (l : Ledger) (j : Int) (a : Account) (h : l.Get j = some a) :
    a.ID = j := by
  unfold Ledger.Get at h
  have := List.find?_some h
  simpa using this

/-- Function `AddBalance` touches neither the entry log nor the transfer records. -/
theorem Ledger.AddBalance_logs (l : Ledger) (id delta : Int) :
    (l.AddBalance id delta).entries = l.entries ∧
    (l.AddBalance id delta).transfers = l.transfers := ⟨rfl, rfl⟩

/-- The ledger after the two balance updates of a transfer, whichever of the two
orders was taken: lookups see the debit on the source and the credit on the
destination. -/
theorem Ledger.Get_after_transfer (l1 : Ledger) (F T A j : Int) :
    (if F < T then (l1.AddBalance F (-A)).AddBalance T A
      else (l1.AddBalance T A).AddBalance F (-A)).Get j =
    (l1.Get j).map (fun a => (a.addBalance F (-A)).addBalance T A) := by
  split
  · rw [Ledger.Get_AddBalance, Ledger.Get_AddBalance]
    cases l1.Get j <;> rfl
  · rw [Ledger.Get_AddBalance, Ledger.Get_AddBalance]
    cases l1.Get j with
    | none => rfl
    | some a =>
      simp only [Option.map_some']
      congr 1
      obtain ⟨id, owner, balance, currency⟩ := a
      unfold Account.addBalance
      by_cases h1 : id = F
      · subst h1
        by_cases h2 : id = T
        · subst h2
          simp
        · simp [h2]
      · by_cases h2 : id = T
        · subst h2
          simp [h1]
        · simp [h1, h2]

/-- When the engine's preconditions hold (distinct existing accounts, positive amount,
sufficient funds), the transfer succeeds. -/
theorem Ledger.TransferTx_succeeds (l : Ledger) (arg : TransferTxParams) (fa ta : Account)
    (hne : arg.FromAccountID ≠ arg.ToAccountID) (hpos : 0 < arg.Amount)
    (hfa : l.Get arg.FromAccountID = some fa) (hta : l.Get arg.ToAccountID = some ta)
    (hfunds : arg.Amount ≤ fa.Balance) :
    ∃ r l', l.TransferTx arg = .ok (r, l') := by
  have hamt : ¬ arg.Amount ≤ 0 := by omega
  have hbal : ¬ fa.Balance - arg.Amount < 0 := by omega
  unfold Ledger.TransferTx
  simp only [hne, hamt, hfa, hta, hbal, if_false]
  simp only [Ledger.Get_after_transfer]
  have h1 : Ledger.Get { l with
      transfers := l.transfers ++ [⟨l.transfers.length + 1, arg.FromAccountID,
        arg.ToAccountID, arg.Amount⟩]
      entries := l.entries ++ [⟨l.entries.length + 1, arg.FromAccountID, -arg.Amount⟩,
        ⟨l.entries.length + 2, arg.ToAccountID, arg.Amount⟩] } arg.FromAccountID = some fa := hfa
  have h2 : Ledger.Get { l with
      transfers := l.transfers ++ [⟨l.transfers.length + 1, arg.FromAccountID,
        arg.ToAccountID, arg.Amount⟩]
      entries := l.entries ++ [⟨l.entries.length + 1, arg.FromAccountID, -arg.Amount⟩,
        ⟨l.entries.length + 2, arg.ToAccountID, arg.Amount⟩] } arg.ToAccountID = some ta := hta
  simp [h1, h2]

/-- What a successful transfer did: the guards held, the returned records are the
appended ones, and every lookup in the new ledger sees the old account with the two
deltas applied. -/
theorem Ledger.TransferTx_inv (l l' : Ledger) (arg : TransferTxParams) (r : TransferTxResult)
    (h : l.TransferTx arg = .ok (r, l')) :
    ∃ fa ta, arg.FromAccountID ≠ arg.ToAccountID ∧ 0 < arg.Amount ∧
      l.Get arg.FromAccountID = some fa ∧ l.Get arg.ToAccountID = some ta ∧
      arg.Amount ≤ fa.Balance ∧
      r.transfer = ⟨l.transfers.length + 1, arg.FromAccountID, arg.ToAccountID, arg.Amount⟩ ∧
      r.fromEntry = ⟨l.entries.length + 1, arg.FromAccountID, -arg.Amount⟩ ∧
      r.toEntry = ⟨l.entries.length + 2, arg.ToAccountID, arg.Amount⟩ ∧
      r.fromAccount =
        (fa.addBalance arg.FromAccountID (-arg.Amount)).addBalance arg.ToAccountID arg.Amount ∧
      r.toAccount =
        (ta.addBalance arg.FromAccountID (-arg.Amount)).addBalance arg.ToAccountID arg.Amount ∧
      l'.transfers = l.transfers ++ [r.transfer] ∧
      l'.entries = l.entries ++ [r.fromEntry, r.toEntry] ∧
      ∀ j, l'.Get j = (l.Get j).map
        (fun a => (a.addBalance arg.FromAccountID (-arg.Amount)).addBalance
          arg.ToAccountID arg.Amount) := by
  unfold Ledger.TransferTx at h
  by_cases hne : arg.FromAccountID = arg.ToAccountID
  · simp [hne] at h
  by_cases hamt : arg.Amount ≤ 0
  · simp [hne, hamt] at h
  simp only [hne, hamt, if_false] at h
  cases hfa : l.Get arg.FromAccountID with
  | none => simp [hfa] at h
  | some fa =>
    cases hta : l.Get arg.ToAccountID with
    | none => simp [hfa, hta] at h
    | some ta =>
      simp only [hfa, hta] at h
      by_cases hbal : fa.Balance - arg.Amount < 0
      · simp [hbal] at h
      simp only [hbal, if_false, Ledger.Get_after_transfer] at h
      have h1 : Ledger.Get { l with
          transfers := l.transfers ++ [⟨l.transfers.length + 1, arg.FromAccountID,
            arg.ToAccountID, arg.Amount⟩]
          entries := l.entries ++ [⟨l.entries.length + 1, arg.FromAccountID, -arg.Amount⟩,
            ⟨l.entries.length + 2, arg.ToAccountID, arg.Amount⟩] } arg.FromAccountID
          = some fa := hfa
      have h2 : Ledger.Get { l with
          transfers := l.transfers ++ [⟨l.transfers.length + 1, arg.FromAccountID,
            arg.ToAccountID, arg.Amount⟩]
          entries := l.entries ++ [⟨l.entries.length + 1, arg.FromAccountID, -arg.Amount⟩,
            ⟨l.entries.length + 2, arg.ToAccountID, arg.Amount⟩] } arg.ToAccountID
          = some ta := hta
      simp only [h1, h2, Option.map_some', Except.ok.injEq, Prod.mk.injEq] at h
      obtain ⟨hr, hl⟩ := h
      subst hr
      subst hl
      refine ⟨fa, ta, hne, by omega, rfl, rfl, by omega, rfl, rfl, rfl, rfl, rfl, ?_, ?_, ?_⟩
      · split <;> rfl
      · split <;> rfl
      · intro j
        rw [Ledger.Get_after_transfer]
        rfl

/-- C8: for every successful transfer of amount `A` from account `F` to account `T`, the
two accounts are distinct, the destination balance after minus before is `A`, the
source balance before minus after is `A`, the sum of the two balances is unchanged,
exactly one transfer record `{F, T, A}` is added and exactly two entries `{F, -A}` and
`{T, +A}` are added, whose amounts sum to 0. -/
theorem Ledger.TransferTx_conserves (l l' : Ledger) (arg : TransferTxParams)
    (r : TransferTxResult) (h : l.TransferTx arg = .ok (r, l')) :
    arg.FromAccountID ≠ arg.ToAccountID ∧
    ∃ fa ta,
      l.Get arg.FromAccountID = some fa ∧ l.Get arg.ToAccountID = some ta ∧
      l'.Get arg.FromAccountID = some r.fromAccount ∧
      l'.Get arg.ToAccountID = some r.toAccount ∧
      r.toAccount.Balance - ta.Balance = arg.Amount ∧
      fa.Balance - r.fromAccount.Balance = arg.Amount ∧
      r.fromAccount.Balance + r.toAccount.Balance = fa.Balance + ta.Balance ∧
      l'.transfers = l.transfers ++ [r.transfer] ∧
      r.transfer.FromAccountID = arg.FromAccountID ∧
      r.transfer.ToAccountID = arg.ToAccountID ∧
      r.transfer.Amount = arg.Amount ∧
      l'.entries = l.entries ++ [r.fromEntry, r.toEntry] ∧
      r.fromEntry.AccountID = arg.FromAccountID ∧ r.fromEntry.Amount = -arg.Amount ∧
      r.toEntry.AccountID = arg.ToAccountID ∧ r.toEntry.Amount = arg.Amount ∧
      r.fromEntry.Amount + r.toEntry.Amount = 0 := by
  obtain ⟨fa, ta, hne, _, hfa, hta, _, ht, he1, he2, hra, hrb, htr, hen, hget⟩ :=
    Ledger.TransferTx_inv l l' arg r h
  have hfid : fa.ID = arg.FromAccountID := Ledger.Get_ID l _ fa hfa
  have htid : ta.ID = arg.ToAccountID := Ledger.Get_ID l _ ta hta
  have hfb : r.fromAccount.Balance = fa.Balance + -arg.Amount := by
    rw [hra, Account.addBalance_Balance, Account.addBalance_ID, Account.addBalance_Balance,
      if_neg (by rw [hfid]; exact hne), if_pos hfid]
  have htb : r.toAccount.Balance = ta.Balance + arg.Amount := by
    rw [hrb, Account.addBalance_Balance, Account.addBalance_ID, Account.addBalance_Balance,
      if_pos htid, if_neg (by rw [htid]; exact fun e => hne e.symm)]
  refine ⟨hne, fa, ta, hfa, hta, ?_, ?_, by omega, by omega, by omega, htr, ?_, ?_, ?_, hen,
    ?_, ?_, ?_, ?_, ?_⟩
  · rw [hget, hfa, hra]; rfl
  · rw [hget, hta, hrb]; rfl
  all_goals simp [ht, he1, he2]

/-- C8 at the example of the spec: balances 100 and 50, `Transfer(A, B, 30)` gives 70
and 80, one transfer record and the entries `{A, -30}` and `{B, +30}`. -/
theorem Ledger.TransferTx_conserves_witness :
    exampleLedger.TransferTx ⟨1, 2, 30⟩ = .ok (exampleResult, exampleLedgerAfter) ∧
    exampleResult.fromAccount.Balance = 70 ∧ exampleResult.toAccount.Balance = 80 ∧
    ∃ fa ta,
      exampleLedger.Get 1 = some fa ∧ exampleLedger.Get 2 = some ta ∧
      exampleLedgerAfter.Get 1 = some exampleResult.fromAccount ∧
      exampleLedgerAfter.Get 2 = some exampleResult.toAccount ∧
      exampleResult.toAccount.Balance - ta.Balance = 30 ∧
      fa.Balance - exampleResult.fromAccount.Balance = 30 ∧
      exampleResult.fromAccount.Balance + exampleResult.toAccount.Balance =
        fa.Balance + ta.Balance ∧
      exampleLedgerAfter.transfers = exampleLedger.transfers ++ [exampleResult.transfer] ∧
      exampleResult.transfer.FromAccountID = 1 ∧
      exampleResult.transfer.ToAccountID = 2 ∧
      exampleResult.transfer.Amount = 30 ∧
      exampleLedgerAfter.entries =
        exampleLedger.entries ++ [exampleResult.fromEntry, exampleResult.toEntry] ∧
      exampleResult.fromEntry.AccountID = 1 ∧ exampleResult.fromEntry.Amount = -30 ∧
      exampleResult.toEntry.AccountID = 2 ∧ exampleResult.toEntry.Amount = 30 ∧
      exampleResult.fromEntry.Amount + exampleResult.toEntry.Amount = 0 :=
  ⟨by decide, by decide, by decide,
    (Ledger.TransferTx_conserves exampleLedger exampleLedgerAfter ⟨1, 2, 30⟩ exampleResult
      (by decide)).2⟩

end SimpleBank
